import Mathlib

/-!
Verification of the KMC SDLS python test application
(`kmc_sdls_test_app.py`): frame model (TC / TM / AOS), CLI argument
resolution, and the apply/process orchestration in `main`.

The python source is embedded shallowly: mutable `Frame` instances become a
`FrameState` record threaded explicitly; python exceptions become
`Option`/`Except` results; `main`'s interactions (frame mutations, security
service construction and calls) are recorded as an explicit event trace.
-/

/-! ## Python primitive helpers -/

/-- Lowercase hex rendering of a natural number with no leading zeros,
`0 ↦ "0"`: python `format(n, 'x')`. -/
def natToHex (n : Nat) : String :=
  String.mk (Nat.toDigits 16 n)

/-- Binary rendering of a natural number with no leading zeros, `0 ↦ "0"`:
python `format(n, 'b')`. -/
def natToBin (n : Nat) : String :=
  String.mk (Nat.toDigits 2 n)

/-- Left-pad `s` with the character `c` to width `w` (python string
formatting fill). -/
def padLeft (c : Char) (w : Nat) (s : String) : String :=
  String.mk (List.replicate (w - s.length) c ++ s.data)

/-- Python `'{0:0Nb}'.format(v)` (when `zeroFill`) or `'{0:Nb}'.format(v)`
(space fill, right aligned).  For a negative value the sign precedes the
zero fill and counts toward the width, as in python. -/
def pyFormatB (zeroFill : Bool) (w : Nat) (v : Int) : String :=
  let digits := natToBin v.natAbs
  if v < 0 then
    if zeroFill then "-" ++ padLeft '0' (w - 1) digits
    else padLeft ' ' w ("-" ++ digits)
  else
    padLeft (if zeroFill then '0' else ' ') w digits

def parseBinAux : List Char → Nat → Option Nat
  | [], acc => some acc
  | c :: cs, acc =>
    if c = '0' then parseBinAux cs (2 * acc)
    else if c = '1' then parseBinAux cs (2 * acc + 1)
    else none

/-- Python `int(s, 2)`: `none` models the `ValueError` raised on an empty
string or a character other than `'0'`/`'1'`. -/
def parseBin (s : String) : Option Nat :=
  match s.data with
  | [] => none
  | cs => parseBinAux cs 0

def parseDecNatAux : List Char → Nat → Option Nat
  | [], acc => some acc
  | c :: cs, acc =>
    if c.isDigit then parseDecNatAux cs (10 * acc + (c.toNat - 48))
    else none

def parseDecNat : List Char → Option Nat
  | [] => none
  | cs => parseDecNatAux cs 0

/-- Python `int(s)` on a decimal literal: optional single sign followed by a
nonempty digit run; `none` models the `ValueError` on anything else. -/
def pyInt (s : String) : Option Int :=
  match s.data with
  | '-' :: rest => (parseDecNat rest).map (fun n => -(n : Int))
  | '+' :: rest => (parseDecNat rest).map (fun n => (n : Int))
  | cs => (parseDecNat cs).map (fun n => (n : Int))

/-- ASCII whitespace stripped by python `str.rstrip()`. -/
def isPySpace (c : Char) : Bool :=
  c = ' ' || c = '\t' || c = '\n' || c = '\r' || c = '\x0b' || c = '\x0c'

/-- Python `line.rstrip()` (ASCII whitespace). -/
def rstrip (s : String) : String :=
  String.mk (s.data.reverse.dropWhile isPySpace).reverse

/-- Python `line.startswith('#')`: the first character is `'#'` (false on
the empty string). -/
def pyStartsWithHash (s : String) : Bool :=
  match s.data with
  | [] => false
  | c :: _ => c = '#'

/-- Python `str.upper()` on ASCII strings. -/
def pyUpper (s : String) : String :=
  String.mk (s.data.map Char.toUpper)

/-- Value of one hex digit, upper or lower case (code points: digits
48-57, `a`-`f` 97-102, `A`-`F` 65-70). -/
def hexVal (c : Char) : Option Nat :=
  let n := c.toNat
  if 48 ≤ n && n ≤ 57 then some (n - 48)
  else if 97 ≤ n && n ≤ 102 then some (n - 87)
  else if 65 ≤ n && n ≤ 70 then some (n - 55)
  else none

def unhexChars : List Char → Option (List Nat)
  | [] => some []
  | [_] => none
  | c1 :: c2 :: rest =>
    match hexVal c1, hexVal c2, unhexChars rest with
    | some h, some l, some tl => some ((16 * h + l) :: tl)
    | _, _, _ => none

/-- Python `binascii.unhexlify`: even-length hex string to bytes; `none`
models the `binascii.Error` on odd length or a non-hex digit. -/
def unhexlify (s : String) : Option (List Nat) :=
  unhexChars s.data

/-! ## Unused module-level default tables

The python module defines `aos_defaults` and `tm_defaults` dictionaries of
per-field default bit strings; no code in the module ever reads them. -/

def aos_defaults : List (String × String) :=
  [("version", "00"),
   ("sc_id", "00101100"),
   ("vc_id", "000000"),
   ("vcfc", "000000000000000000000000"),
   ("replay_flag", "0"),
   ("vcfc_flag", "1"),
   ("reserved_spare", "00"),
   ("vcfc_cycle", "0000")]

def tm_defaults : List (String × String) :=
  [("version", "00"),
   ("sc_id", "0000101100"),
   ("vc_id", "000"),
   ("ocf_flag", "0"),
   ("mcfc", "00000000"),
   ("vcfc", "00000000"),
   ("shf", "0"),
   ("synch", "0"),
   ("pof", "0"),
   ("sl_id", "00"),
   ("fhp", "00000000000")]

/-! ## Frame model -/

inductive FrameType
  | TC
  | TM
  | AOS
deriving DecidableEq

/-- Mutable state of a python `Frame` instance (base class `Frame` plus the
per-subclass `__init__` fields). `hex_value = none` models python `None`. -/
structure FrameState where
  sc_id : String
  vc_id : String
  hex_value : Option String
  override : Bool
  frame_header_hex : String
  frame_body_hex : String
  default_frame_hex : String
deriving DecidableEq

/-- `Frame.override_scid`. -/
def Frame.override_scid (f : FrameState) (scid : String) : FrameState :=
  { f with override := true, sc_id := scid }

/-- `Frame.override_vcid`. -/
def Frame.override_vcid (f : FrameState) (vcid : String) : FrameState :=
  { f with override := true, vc_id := vcid }

/-- `Frame.override_hex`. -/
def Frame.override_hex (f : FrameState) (hex : String) : FrameState :=
  { f with override := true, hex_value := some hex }

/-- `Frame.set_body`. -/
def Frame.set_body (f : FrameState) (hex : String) : FrameState :=
  { f with frame_body_hex := hex }

/-- Class-level constants of python class `TC`. -/
def TC.version : String := "00"

def TC.bypass_flag : String := "1"

def TC.ctrl_cmd_flag : String := "0"

def TC.spare : String := "00"

def TC.frame_length : String := "0000001000"

def TC.frame_sequence_number : String := "00000000"

/-- `TC.__init__`. -/
def TC.init : FrameState :=
  { sc_id := "0000101100"
    vc_id := "000001"
    hex_value := none
    override := false
    frame_header_hex := "202c040800"
    frame_body_hex := "0001bd37"
    default_frame_hex := "202c040800" ++ "0001bd37" }

/-- `TC.to_hex`.  `none` models an uncaught `ValueError` from
`int(frame_header_bin, 2)`. -/
def TC.to_hex (f : FrameState) : Option String :=
  match f.hex_value with
  | some h => some h
  | none =>
    if !f.override then some f.default_frame_hex
    else
      let frame_header_bin :=
        TC.version ++ TC.bypass_flag ++ TC.ctrl_cmd_flag ++ TC.spare ++
          f.sc_id ++ f.vc_id ++ TC.frame_length ++ TC.frame_sequence_number
      match parseBin frame_header_bin with
      | none => none
      | some n => some (natToHex n ++ f.frame_body_hex)

/-- `TM.__init__`. -/
def TM.init : FrameState :=
  { sc_id := "0011111111"
    vc_id := "000"
    hex_value := none
    override := false
    frame_header_hex := "4ff000000000"
    frame_body_hex := "00000000000000000000000000001111111111111111111111111111111111111111111111111111111111111111111111111111111111111111111111111111111111111111111111111111111100000000000000000000000000000000"
    default_frame_hex := "4ff000000000" ++ "00000000000000000000000000001111111111111111111111111111111111111111111111111111111111111111111111111111111111111111111111111111111111111111111111111111111100000000000000000000000000000000" }

/-- `TM.to_hex`: the override path sets `frame_header_bin = ""` and then
calls `int("", 2)`, which raises `ValueError` (modelled as `none`). -/
def TM.to_hex (f : FrameState) : Option String :=
  match f.hex_value with
  | some h => some h
  | none =>
    if !f.override then some f.default_frame_hex
    else
      let frame_header_bin := ""
      match parseBin frame_header_bin with
      | none => none
      | some n => some (natToHex n ++ f.frame_body_hex)

/-- Class-level constants of python class `AOS`. -/
def AOS.version : String := "01"

def AOS.vcfc : String := "000000"

def AOS.replay_flag : String := "0"

def AOS.vcfc_flag : String := "0"

def AOS.spare : String := "00"

def AOS.vcc_cycle : String := "0000"

/-- `AOS.__init__`. -/
def AOS.init : FrameState :=
  { sc_id := "111111111"
    vc_id := "000000"
    hex_value := none
    override := false
    frame_header_hex := "7fc000000000"
    frame_body_hex := "00000000000000000000000000001111111111111111111111111111111111111111111111111111111111111111111111111111111111111111111111111111111111111111111111111111111100000000000000000000000000000000"
    default_frame_hex := "7fc000000000" ++ "00000000000000000000000000001111111111111111111111111111111111111111111111111111111111111111111111111111111111111111111111111111111111111111111111111111111100000000000000000000000000000000" }

/-- `AOS.to_hex`: same dead-end override path as `TM.to_hex`. -/
def AOS.to_hex (f : FrameState) : Option String :=
  match f.hex_value with
  | some h => some h
  | none =>
    if !f.override then some f.default_frame_hex
    else
      let frame_header_bin := ""
      match parseBin frame_header_bin with
      | none => none
      | some n => some (natToHex n ++ f.frame_body_hex)

/-- Constructor dispatch on the frame type selected in `main`. -/
def Frame.init : FrameType → FrameState
  | FrameType.TC => TC.init
  | FrameType.TM => TM.init
  | FrameType.AOS => AOS.init

/-- Virtual dispatch of `to_hex` on the frame subclass. -/
def Frame.to_hex : FrameType → FrameState → Option String
  | FrameType.TC => TC.to_hex
  | FrameType.TM => TM.to_hex
  | FrameType.AOS => AOS.to_hex

/-! ## Argument resolver -/

/-- `scid_type`: the python body evaluates
`int(scid) >= 0 and int(scid) <= 1023` and discards the result, so the
`except` clause fires only when `int(scid)` itself raises; any string that
parses as an integer — in range or not — is returned unchanged. -/
def scid_type (scid : String) : Except String String :=
  match pyInt scid with
  | none => Except.error "SC ID must be a number between 0 and 1023 inclusive"
  | some n =>
    let _ := decide (0 ≤ n) && decide (n ≤ 1023)
    Except.ok scid

/-- `vcid_type`: same discarded range check as `scid_type`. -/
def vcid_type (vcid : String) : Except String String :=
  match pyInt vcid with
  | none => Except.error "VC ID must be a number between 0 and 63 inclusive"
  | some n =>
    let _ := decide (0 ≤ n) && decide (n ≤ 63)
    Except.ok vcid

/-- `frame_type` argparse validator. -/
def frame_type (t : String) : Except String String :=
  if pyUpper t = "TC" || pyUpper t = "TM" || pyUpper t = "AOS" then Except.ok t
  else Except.error "Frame type must be either TC, TM, or AOS"

/-! ## main: configuration, overrides, orchestration -/

/-- Parsed CLI options as stored by argparse (`cli_args`). `none` models an
absent option (python `None`); string options keep their raw string value. -/
structure CliArgs where
  frame : Option String
  scid : Option String
  vcid : Option String
  ftype : Option String
  process_only : Bool
  apply_only : Bool
  properties : List String

/-- Python truthiness of an optional string (`if cli_args.frame:` etc.):
`None` and the empty string are falsy. -/
def truthy : Option String → Bool
  | none => false
  | some s => !s.data.isEmpty

/-- SC-ID binary formatting in `main`: `'{0:010b}'` for TC, `'{0:10b}'`
(space fill) for TM, `'{0:08b}'` for AOS. -/
def scidBin (ft : FrameType) (n : Int) : String :=
  match ft with
  | FrameType.TC => pyFormatB true 10 n
  | FrameType.TM => pyFormatB false 10 n
  | FrameType.AOS => pyFormatB true 8 n

/-- VC-ID binary formatting in `main`: `'{0:06b}'` for TC and AOS,
`'{0:03b}'` for TM. -/
def vcidBin (ft : FrameType) (n : Int) : String :=
  match ft with
  | FrameType.TC => pyFormatB true 6 n
  | FrameType.TM => pyFormatB true 3 n
  | FrameType.AOS => pyFormatB true 6 n

/-- Frame-type resolution at the top of `main`: absent `-t` defaults to TC;
otherwise dispatch on the upper-cased token, unknown tokens raising
`ArgumentException`. -/
def resolveType : Option String → Option FrameType
  | none => some FrameType.TC
  | some t =>
    if pyUpper t = "TC" then some FrameType.TC
    else if pyUpper t = "TM" then some FrameType.TM
    else if pyUpper t = "AOS" then some FrameType.AOS
    else none

/-- Observable actions of one run of `main`: frame mutations, security
service construction, and the two security calls with their byte input. -/
inductive Event
  | overrideScid (value : String)
  | overrideVcid (value : String)
  | overrideHex (value : String)
  | initService (props : List String)
  | applyCall (t : FrameType) (input : List Nat)
  | processCall (t : FrameType) (input : List Nat)
deriving DecidableEq

/-- Error taxonomy of `main`: `argErr` is the explicitly raised
`ArgumentException`; `valueErr` is any other uncaught exception
(`ValueError` from `int`, `binascii.Error`). -/
inductive ErrKind
  | argErr (msg : String)
  | valueErr (msg : String)
deriving DecidableEq

/-- The SC-ID override block of `main` (guarded by `if cli_args.scid:`). -/
def scidStep (ft : FrameType) (args : CliArgs) (f : FrameState) :
    Except ErrKind (FrameState × List Event) :=
  if truthy args.scid then
    match pyInt (args.scid.getD "") with
    | none => Except.error (ErrKind.valueErr "invalid literal for int")
    | some n =>
      let s := scidBin ft n
      Except.ok (Frame.override_scid f s, [Event.overrideScid s])
  else Except.ok (f, [])

/-- The VC-ID override block of `main` (guarded by `if cli_args.vcid:`). -/
def vcidStep (ft : FrameType) (args : CliArgs) (f : FrameState) :
    Except ErrKind (FrameState × List Event) :=
  if truthy args.vcid then
    match pyInt (args.vcid.getD "") with
    | none => Except.error (ErrKind.valueErr "invalid literal for int")
    | some n =>
      let s := vcidBin ft n
      Except.ok (Frame.override_vcid f s, [Event.overrideVcid s])
  else Except.ok (f, [])

/-- The whole-frame override block of `main` (guarded by
`if cli_args.frame:`). -/
def hexStep (args : CliArgs) (f : FrameState) : FrameState × List Event :=
  if truthy args.frame then
    let h := args.frame.getD ""
    (Frame.override_hex f h, [Event.overrideHex h])
  else (f, [])

/-- The override sequence of `main`: SC-ID, then VC-ID, then whole frame. -/
def setupFrame (ft : FrameType) (args : CliArgs) :
    Except ErrKind (FrameState × List Event) :=
  match scidStep ft args (Frame.init ft) with
  | Except.error e => Except.error e
  | Except.ok (f1, evs1) =>
    match vcidStep ft args f1 with
    | Except.error e => Except.error e
    | Except.ok (f2, evs2) =>
      let (f3, evs3) := hexStep args f2
      Except.ok (f3, evs1 ++ evs2 ++ evs3)

/-- The properties-file loop of `main`: keep each line that does not start
with `#` and whose `rstrip()` is nonempty, appending `line.rstrip()`. -/
def buildProps (lines : List String) : List String :=
  lines.foldl
    (fun acc line =>
      if !pyStartsWithHash line && rstrip line != "" then acc ++ [rstrip line]
      else acc) []

/-- Body of `main` after frame-type resolution, given the resolved type.
`svc` abstracts the external apply-security operations (the bytes returned
by `k.apply_security_*`).  Returns the event trace together with `none` on
a clean run or the uncaught exception.  Python's local `result` variable
(the apply output when apply ran, else the raw frame bytes) is written out
as the conditional fed to the process call, with the same condition as the
apply branch. -/
def mainRunCore (ft : FrameType) (args : CliArgs)
    (svc : FrameType → List Nat → List Nat) : List Event × Option ErrKind :=
  if truthy args.frame && (truthy args.scid || truthy args.vcid) then
    ([], some (ErrKind.argErr "Cannot have both Custom Frame override and SC_ID or VC_ID overrides specified at the same time"))
  else
    match setupFrame ft args with
    | Except.error e => ([], some e)
    | Except.ok (f, evsSetup) =>
      match Frame.to_hex ft f with
      | none =>
        (evsSetup ++ [Event.initService (buildProps args.properties)],
         some (ErrKind.valueErr "invalid literal for int with base 2"))
      | some hx =>
        match unhexlify hx with
        | none =>
          (evsSetup ++ [Event.initService (buildProps args.properties)],
           some (ErrKind.valueErr "binascii error"))
        | some tc =>
          (evsSetup ++ [Event.initService (buildProps args.properties)] ++
            (if !args.process_only || (args.process_only && args.apply_only) then
              [Event.applyCall ft tc]
             else []) ++
            (if !args.apply_only || (args.process_only && args.apply_only) then
              [Event.processCall ft
                (if !args.process_only || (args.process_only && args.apply_only)
                 then svc ft tc
                 else tc)]
             else []),
           none)

/-- `main` from argparse output onward. -/
def mainRun (args : CliArgs) (svc : FrameType → List Nat → List Nat) :
    List Event × Option ErrKind :=
  match resolveType args.ftype with
  | none => ([], some (ErrKind.argErr "Frame type must be TC, TM, or AOS"))
  | some ft => mainRunCore ft args svc

def isSvcCall : Event → Bool
  | Event.applyCall _ _ => true
  | Event.processCall _ _ => true
  | _ => false

/-- The security-service interactions of a trace, in order. -/
def svcCalls (evs : List Event) : List Event :=
  evs.filter isSvcCall

/-! ## Concrete run configurations used to instantiate the theorems -/

/-- An apply oracle that returns its input unchanged (stands in for the
external `apply_security_*` operations at concrete instantiations). -/
def svcId : FrameType → List Nat → List Nat :=
  fun _ bytes => bytes

/-- All options at their argparse defaults. -/
def argsDefault : CliArgs :=
  { frame := none, scid := none, vcid := none, ftype := none,
    process_only := false, apply_only := false, properties := [] }

/-- Defaults with `-P` (`--processOnly`) set. -/
def argsProcessOnly : CliArgs :=
  { frame := none, scid := none, vcid := none, ftype := none,
    process_only := true, apply_only := false, properties := [] }

/-- A configuration with both a non-empty whole-frame override and an
SC-ID override. -/
def argsConflict : CliArgs :=
  { frame := some "deadbeef", scid := some "7", vcid := none, ftype := none,
    process_only := false, apply_only := false, properties := [] }

/-- A configuration supplying the whole-frame override as the empty string
together with an SC-ID override. -/
def argsC4cex : CliArgs :=
  { frame := some "", scid := some "5", vcid := none, ftype := none,
    process_only := false, apply_only := false, properties := [] }

/-! ## Helper lemmas -/

lemma buildProps_foldl (lines : List String) (acc : List String) :
    lines.foldl
      (fun acc line =>
        if !pyStartsWithHash line && rstrip line != "" then acc ++ [rstrip line]
        else acc) acc
      = acc ++ (lines.filter
          (fun line => !pyStartsWithHash line && rstrip line != "")).map rstrip := by
  induction lines generalizing acc with
  | nil => simp
  | cons l ls ih =>
    cases hc : (!pyStartsWithHash l && rstrip l != "") with
    | true =>
      simp only [List.foldl_cons, List.filter_cons, hc, if_true]
      rw [ih]
      simp
    | false =>
      simp only [List.foldl_cons, List.filter_cons, hc, Bool.false_eq_true,
        if_false]
      rw [ih]

/-! ## Claim theorems -/

/-- C5: for each of the three frame types, constructing the frame and
calling `to_hex()` with no overrides returns exactly that type's literal
default hex string; for TC this is the header hex `202c040800` concatenated
with the body hex `0001bd37`, the string `202c0408000001bd37`. -/
theorem C5_default_to_hex_literals :
    Frame.to_hex FrameType.TC (Frame.init FrameType.TC) = some "202c0408000001bd37" ∧
    Frame.to_hex FrameType.TM (Frame.init FrameType.TM) =
      some "4ff00000000000000000000000000000000000001111111111111111111111111111111111111111111111111111111111111111111111111111111111111111111111111111111111111111111111111111111100000000000000000000000000000000" ∧
    Frame.to_hex FrameType.AOS (Frame.init FrameType.AOS) =
      some "7fc00000000000000000000000000000000000001111111111111111111111111111111111111111111111111111111111111111111111111111111111111111111111111111111111111111111111111111111100000000000000000000000000000000" ∧
    "202c0408000001bd37" = "202c040800" ++ "0001bd37" := by
  refine ⟨rfl, rfl, rfl, rfl⟩

/-- C7: whenever a whole-frame override hex string has been set, `to_hex()`
returns it verbatim, ignoring all field state, including when SC-ID and
VC-ID field overrides were applied to the same frame before or after. -/
theorem C7_whole_frame_override_wins (ft : FrameType) (f : FrameState)
    (h s v : String) :
    Frame.to_hex ft (Frame.override_hex f h) = some h ∧
    Frame.to_hex ft
      (Frame.override_hex (Frame.override_vcid (Frame.override_scid f s) v) h) =
        some h ∧
    Frame.to_hex ft
      (Frame.override_vcid (Frame.override_scid (Frame.override_hex f h) s) v) =
        some h := by
  cases ft <;> exact ⟨rfl, rfl, rfl⟩

/-- C10: the TC field-by-field header-assembly path agrees with the literal
fast path: overriding SC-ID with its default value 44 (binary `0000101100`,
via the `'{0:010b}'` CLI formatting) and/or VC-ID with its default value 1
(binary `000001`) yields the same `to_hex()` string `202c0408000001bd37`
as the no-override default path. -/
theorem C10_tc_field_path_matches_literal :
    Frame.to_hex FrameType.TC
        (Frame.override_scid (Frame.init FrameType.TC) (scidBin FrameType.TC 44)) =
      some "202c0408000001bd37" ∧
    Frame.to_hex FrameType.TC
        (Frame.override_vcid (Frame.init FrameType.TC) (vcidBin FrameType.TC 1)) =
      some "202c0408000001bd37" ∧
    Frame.to_hex FrameType.TC
        (Frame.override_vcid
          (Frame.override_scid (Frame.init FrameType.TC) (scidBin FrameType.TC 44))
          (vcidBin FrameType.TC 1)) =
      some "202c0408000001bd37" ∧
    Frame.to_hex FrameType.TC (Frame.init FrameType.TC) =
      some "202c0408000001bd37" := by
  refine ⟨rfl, rfl, rfl, rfl⟩

/-- C2: contrary to the claim, the TM and AOS `to_hex()` override paths
never produce a hex string: they assemble an empty header bit string and
`int("", 2)` raises `ValueError` (modelled as `none`), already for the
in-range override value 44 formatted exactly as `main` formats it. -/
theorem C2_tm_aos_override_to_hex_fails :
    Frame.to_hex FrameType.TM
        (Frame.override_scid (Frame.init FrameType.TM) (scidBin FrameType.TM 44)) =
      none ∧
    Frame.to_hex FrameType.AOS
        (Frame.override_scid (Frame.init FrameType.AOS) (scidBin FrameType.AOS 44)) =
      none ∧
    Frame.to_hex FrameType.TM
        (Frame.override_vcid (Frame.init FrameType.TM) (vcidBin FrameType.TM 0)) =
      none := by
  refine ⟨rfl, rfl, rfl⟩

/-- C3: contrary to the claim, the resolver accepts the out-of-range values
1024 (SC-ID) and 64 (VC-ID): the range comparison in `scid_type` and
`vcid_type` is evaluated and discarded, so any integer-parsable string is
returned unchanged, while a non-numeric string is still rejected. -/
theorem C3_out_of_range_ids_accepted :
    scid_type "1024" = Except.ok "1024" ∧
    vcid_type "64" = Except.ok "64" ∧
    scid_type "abc" =
      Except.error "SC ID must be a number between 0 and 1023 inclusive" := by
  refine ⟨rfl, rfl, rfl⟩

/-- C6: the TM and AOS default instance state contradicts the module's own
(unused) `tm_defaults` and `aos_defaults` tables, which carry the claimed
field values: `TM.__init__` sets `sc_id` to `0011111111` (255), not the
table's `0000101100` (44), with header hex `4ff000000000`; `AOS.__init__`
sets a nine-character `sc_id` of `111111111`, not `00101100`, with header
hex `7fc000000000`; and the class constant `AOS.vcfc_flag` is `0` where the
table says `1`, with `AOS.version` `01` where the table says `00`. -/
theorem C6_tm_aos_defaults_contradict_tables :
    tm_defaults.lookup "sc_id" = some "0000101100" ∧
    (Frame.init FrameType.TM).sc_id = "0011111111" ∧
    (Frame.init FrameType.TM).sc_id ≠ "0000101100" ∧
    (Frame.init FrameType.TM).frame_header_hex = "4ff000000000" ∧
    aos_defaults.lookup "sc_id" = some "00101100" ∧
    (Frame.init FrameType.AOS).sc_id = "111111111" ∧
    (Frame.init FrameType.AOS).sc_id ≠ "00101100" ∧
    (Frame.init FrameType.AOS).frame_header_hex = "7fc000000000" ∧
    aos_defaults.lookup "vcfc_flag" = some "1" ∧
    AOS.vcfc_flag = "0" ∧
    aos_defaults.lookup "version" = some "00" ∧
    AOS.version = "01" := by
  refine ⟨rfl, rfl, by decide, rfl, rfl, rfl, by decide, rfl, rfl, rfl, rfl, rfl⟩

/-- C9 counterexample: the configuration lines are not passed through
verbatim: the line `"a "` survives the filter but is appended right-stripped
as `"a"`, and the non-empty all-whitespace line `"  "` is dropped entirely,
both contradicting the claim at these explicit inputs. -/
theorem C9_rstrip_not_verbatim :
    buildProps ["a "] = ["a"] ∧ ("a" : String) ≠ "a " ∧
    buildProps ["  "] = [] := by
  refine ⟨rfl, by decide, rfl⟩

/-- C9 (amended): the configuration-line list handed to the Security
Service initializer consists of exactly the source's lines that do not
start with `#` and whose right-stripped form is non-empty, each with
trailing whitespace removed, in original order. -/
theorem C9_props_filter_map (lines : List String) :
    buildProps lines =
      (lines.filter
        (fun line => !pyStartsWithHash line && rstrip line != "")).map rstrip := by
  unfold buildProps
  simpa using buildProps_foldl lines []

lemma scidStep_no_svc (ft : FrameType) (args : CliArgs) (f f' : FrameState)
    (evs : List Event) (h : scidStep ft args f = Except.ok (f', evs)) :
    evs.filter isSvcCall = [] := by
  unfold scidStep at h
  split at h
  · split at h
    · exact Except.noConfusion h
    · cases h
      rfl
  · cases h
    rfl

lemma vcidStep_no_svc (ft : FrameType) (args : CliArgs) (f f' : FrameState)
    (evs : List Event) (h : vcidStep ft args f = Except.ok (f', evs)) :
    evs.filter isSvcCall = [] := by
  unfold vcidStep at h
  split at h
  · split at h
    · exact Except.noConfusion h
    · cases h
      rfl
  · cases h
    rfl

lemma hexStep_no_svc (args : CliArgs) (f : FrameState) :
    (hexStep args f).2.filter isSvcCall = [] := by
  unfold hexStep
  split
  · rfl
  · rfl

lemma setupFrame_no_svc (ft : FrameType) (args : CliArgs) (f : FrameState)
    (evs : List Event) (h : setupFrame ft args = Except.ok (f, evs)) :
    evs.filter isSvcCall = [] := by
  unfold setupFrame at h
  split at h
  · exact Except.noConfusion h
  next f1 evs1 h1 =>
    split at h
    · exact Except.noConfusion h
    next f2 evs2 h2 =>
      split at h
      next f3 evs3 h3 =>
        cases h
        have hx : evs3.filter isSvcCall = [] := by
          have := hexStep_no_svc args f2
          rw [h3] at this
          exact this
        simp [List.filter_append, scidStep_no_svc ft args _ _ _ h1,
          vcidStep_no_svc ft args _ _ _ h2, hx]

/-- C1: for every run configuration that completes, apply-security is
invoked iff `process_only` is false or `apply_only` is true, and
process-security is invoked iff `apply_only` is false or `process_only` is
true; when both run, apply runs first; each step runs exactly once, on the
operation pair of the configured frame type.  Both-flags-true behaves like
both-flags-false, and apply-only never invokes process. -/
theorem C1_orchestration_modes (args : CliArgs)
    (svc : FrameType → List Nat → List Nat) (ft : FrameType) (tr : List Event)
    (hft : resolveType args.ftype = some ft)
    (hok : mainRun args svc = (tr, none)) :
    ∃ a p, svcCalls tr =
      (if !args.process_only || args.apply_only then [Event.applyCall ft a]
       else []) ++
      (if !args.apply_only || args.process_only then [Event.processCall ft p]
       else []) := by
  have hcore : mainRunCore ft args svc = (tr, none) := by
    unfold mainRun at hok
    rw [hft] at hok
    exact hok
  unfold mainRunCore at hcore
  split at hcore
  · simp at hcore
  · split at hcore
    · simp at hcore
    next f evsSetup hsetup =>
      split at hcore
      · simp at hcore
      next hx hhex =>
        split at hcore
        · simp at hcore
        next tc hunhex =>
          injection hcore with htr hnone
          subst htr
          have hs : evsSetup.filter isSvcCall = [] :=
            setupFrame_no_svc ft args f evsSetup hsetup
          refine ⟨tc,
            (if !args.process_only || (args.process_only && args.apply_only)
             then svc ft tc else tc), ?_⟩
          cases hP : args.process_only <;> cases hA : args.apply_only <;>
            simp [svcCalls, List.filter_append, hs, isSvcCall, hP, hA]

/-- C8: with `apply_only = false` and `process_only = true`, on a completed
run the apply operation is never invoked and the single process-security
call receives exactly the bytes obtained by unhexlifying the built frame's
`to_hex()` output, unchanged. -/
theorem C8_process_only_data_flow (args : CliArgs)
    (svc : FrameType → List Nat → List Nat) (tr : List Event)
    (hA : args.apply_only = false) (hP : args.process_only = true)
    (hok : mainRun args svc = (tr, none)) :
    ∃ ft f evs hx tcb,
      resolveType args.ftype = some ft ∧
      setupFrame ft args = Except.ok (f, evs) ∧
      Frame.to_hex ft f = some hx ∧
      unhexlify hx = some tcb ∧
      svcCalls tr = [Event.processCall ft tcb] := by
  unfold mainRun at hok
  cases hres : resolveType args.ftype with
  | none =>
    rw [hres] at hok
    simp at hok
  | some ft =>
    have hok : mainRunCore ft args svc = (tr, none) := by
      rw [hres] at hok
      exact hok
    unfold mainRunCore at hok
    split at hok
    · simp at hok
    · split at hok
      · simp at hok
      next f evsSetup hsetup =>
        split at hok
        · simp at hok
        next hx hhex =>
          split at hok
          · simp at hok
          next tc hunhex =>
            injection hok with htr hnone
            subst htr
            have hs : evsSetup.filter isSvcCall = [] :=
              setupFrame_no_svc ft args f evsSetup hsetup
            refine ⟨ft, f, evsSetup, hx, tc, rfl, hsetup, hhex, hunhex, ?_⟩
            simp [svcCalls, List.filter_append, hs, isSvcCall, hP, hA]

/-- C4 counterexample: supplying the whole-frame override as the empty
string together with an SC-ID override does not fail: the empty string is
falsy in the mutual-exclusion check (and in the override application), so
the SC-ID override is applied, the Security Service is constructed, and
both apply and process are invoked. -/
theorem C4_empty_frame_override_bypasses_check :
    argsC4cex.frame.isSome = true ∧ argsC4cex.scid.isSome = true ∧
    mainRun argsC4cex svcId =
      ([Event.overrideScid "0000000101", Event.initService [],
        Event.applyCall FrameType.TC [32, 5, 4, 8, 0, 0, 1, 189, 55],
        Event.processCall FrameType.TC [32, 5, 4, 8, 0, 0, 1, 189, 55]],
       none) := by
  refine ⟨rfl, rfl, by decide⟩

/-- C4 (amended): whenever a non-empty whole-frame hex override and a
non-empty SC-ID or VC-ID override are supplied together, the run fails
with an `ArgumentException` and the event trace is empty: no override is
applied to the frame and the Security Service is neither constructed nor
called. -/
theorem C4_conflict_rejected_before_any_effect (args : CliArgs)
    (svc : FrameType → List Nat → List Nat)
    (hf : truthy args.frame = true)
    (ho : (truthy args.scid || truthy args.vcid) = true) :
    (mainRun args svc).1 = [] ∧
    ∃ m, (mainRun args svc).2 = some (ErrKind.argErr m) := by
  unfold mainRun
  cases resolveType args.ftype with
  | none => exact ⟨rfl, _, rfl⟩
  | some ft =>
    unfold mainRunCore
    rw [hf, ho]
    exact ⟨rfl, _, rfl⟩

/-- C1 witness: the all-defaults configuration completes, the apply and
process conditions both hold, and the service-call trace is as the theorem
states at frame type TC. -/
theorem C1_orchestration_modes_witness :
    ∃ a p, svcCalls (mainRun argsDefault svcId).1 =
      (if !argsDefault.process_only || argsDefault.apply_only then
        [Event.applyCall FrameType.TC a]
       else []) ++
      (if !argsDefault.apply_only || argsDefault.process_only then
        [Event.processCall FrameType.TC p]
       else []) :=
  C1_orchestration_modes argsDefault svcId FrameType.TC
    (mainRun argsDefault svcId).1 (by decide) (by decide)

/-- C8 witness: the process-only configuration at defaults completes and
its single service call is the process call on the unhexlified default TC
frame bytes. -/
theorem C8_process_only_data_flow_witness :
    ∃ ft f evs hx tcb,
      resolveType argsProcessOnly.ftype = some ft ∧
      setupFrame ft argsProcessOnly = Except.ok (f, evs) ∧
      Frame.to_hex ft f = some hx ∧
      unhexlify hx = some tcb ∧
      svcCalls (mainRun argsProcessOnly svcId).1 = [Event.processCall ft tcb] :=
  C8_process_only_data_flow argsProcessOnly svcId
    (mainRun argsProcessOnly svcId).1 (by decide) (by decide) (by decide)

/-- C4 witness: with a non-empty whole-frame override and an SC-ID override
both supplied, the run produces no events and fails with an
`ArgumentException`. -/
theorem C4_conflict_rejected_before_any_effect_witness :
    (mainRun argsConflict svcId).1 = [] ∧
    ∃ m, (mainRun argsConflict svcId).2 = some (ErrKind.argErr m) :=
  C4_conflict_rejected_before_any_effect argsConflict svcId (by decide)
    (by decide)
